import Mathlib

/-!
Verification of the geospatial resolution and rendering engine of the
LosslessFour map frontend (`MapComponent.jsx`: `DiscoverMap`, `TradeMap`,
`MatchesMap`).

Coordinates are modelled as exact rationals (the source uses JS numbers);
ring points follow the GeoJSON convention `[lng, lat]`.  The curve-lift
computation, which takes a real square root, is modelled over `ℝ`.
-/

namespace MapEngine

/-- A ring point, GeoJSON order: `(lng, lat)`. -/
abbrev Pt := ℚ × ℚ

/-- The straddle guard of one edge in `pointInPolygonRings`:
`yi > lat !== yj > lat` in the source. -/
def straddle (yi yj lat : ℚ) : Bool :=
  decide (yi > lat) != decide (yj > lat)

/-- One edge test of the ray cast, from `pointInPolygonRings`:
`yi > lat !== yj > lat && lng < ((xj - xi) * (lat - yi)) / (yj - yi) + xi`.
The `&&` short-circuit of the source is kept: the division is compared
only under the straddle guard. -/
def edgeCrossing (xi yi xj yj lng lat : ℚ) : Bool :=
  straddle yi yj lat && decide (lng < (xj - xi) * (lat - yi) / (yj - yi) + xi)

/-- The edge list walked by the inner loop of `pointInPolygonRings`:
`i` runs over the ring with `j = i - 1` (and `j = length - 1` when `i = 0`),
giving the pairs `(ring[i], ring[j])`. -/
def ringEdges (ring : List Pt) : List (Pt × Pt) :=
  match ring.getLast? with
  | none => []
  | some lst => ring.zip (lst :: ring)

/-- Source `pointInPolygonRings(rings, lng, lat)`: even-odd ray cast, toggling a
single `inside` flag across the edges of every ring (outer ring and holes
alike). -/
def pointInPolygonRings (rings : List (List Pt)) (lng lat : ℚ) : Bool :=
  rings.foldl
    (fun inside ring =>
      (ringEdges ring).foldl
        (fun ins e =>
          if edgeCrossing e.1.1 e.1.2 e.2.1 e.2.2 lng lat then !ins else ins)
        inside)
    false

/-- GeoJSON geometry of a boundary feature: `Polygon` (a list of rings) or
`MultiPolygon` (a list of ring lists). -/
inductive Geometry where
  | polygon (rings : List (List Pt))
  | multiPolygon (polys : List (List (List Pt)))
deriving DecidableEq

/-- A boundary feature: optional geometry (the source guards `!geom`),
`properties.name` and `properties.formal_en` (absent `formal_en` is modelled
as the empty string, matching the source's `|| ''` default). -/
structure Feature where
  geometry : Option Geometry
  name : String
  formal : String
deriving DecidableEq

/-- Source `pointInFeature(feature, lng, lat)`: dispatch on the geometry type;
a `MultiPolygon` matches when any constituent polygon does; missing or
unknown geometry never matches. -/
def pointInFeature (f : Feature) (lng lat : ℚ) : Bool :=
  match f.geometry with
  | none => false
  | some (.polygon rings) => pointInPolygonRings rings lng lat
  | some (.multiPolygon polys) =>
      polys.any (fun poly => pointInPolygonRings poly lng lat)

/-- Point-to-country resolution: `geoData.features.find(f =>
pointInFeature(f, lng, lat))` — first feature of the dataset, in its
natural order, that contains the point. -/
def resolve (features : List Feature) (lng lat : ℚ) : Option Feature :=
  features.find? (fun f => pointInFeature f lng lat)

/-- Model of JS `.toLowerCase()`: lowercase every character.  Written as a
map over the character list so that proofs can evaluate it. -/
def lowerStr (s : String) : String :=
  ⟨s.data.map Char.toLower⟩

/-- Name lookup used by `DiscoverMap`, `TradeMap.processCountry` and the
`MatchesMap` home resolution: case-insensitive exact match against the
primary name or the formal name, first match wins. -/
def findByName (q : String) (features : List Feature) : Option Feature :=
  features.find? (fun f =>
    lowerStr f.name == lowerStr q || lowerStr f.formal == lowerStr q)

/-- A partner supplied to `MatchesMap`: `{ name, location, lat, lng, color }`
(the location label plays no role in the engine). -/
structure Partner where
  name : String
  lat : ℚ
  lng : ℚ
  color : String
deriving DecidableEq

/-- Effective partner color: `partner.color || '#3B5BF5'` — the default is
used when the color string is empty (the only falsy string). -/
def colorOrDefault (c : String) : String :=
  if c = "" then "#3B5BF5" else c

/-- A highlight record produced by `buildCountryMap`: the resolved feature
and the chosen fill color. -/
structure CountryMatch where
  feature : Feature
  color : String
deriving DecidableEq

/-- Loop body of `buildCountryMap` for one partner: resolve its point to a
feature; skip unresolved partners; push a new record only when no record
for that feature exists yet (dedup by feature identity), taking the
partner's color (with the `|| '#3B5BF5'` default). -/
def bcmStep (features : List Feature) (result : List CountryMatch)
    (p : Partner) : List CountryMatch :=
  match resolve features p.lng p.lat with
  | none => result
  | some f =>
      if result.any (fun r => decide (r.feature = f)) then result
      else result ++ [{ feature := f, color := colorOrDefault p.color }]

/-- Source `buildCountryMap(geoData, partners)`: fold `bcmStep` over the
partner list, starting from an empty result. -/
def buildCountryMap (features : List Feature) (partners : List Partner) :
    List CountryMatch :=
  partners.foldl (bcmStep features) []

/-- Tooltip member names from `renderAll`'s `onEachFeature`:
`partners.filter(p => pointInFeature(feature, p.lng, p.lat)).map(p => p.name)`
(the source joins them with `', '` for display). -/
def memberNames (f : Feature) (partners : List Partner) : List String :=
  (partners.filter (fun p => pointInFeature f p.lng p.lat)).map Partner.name

/-- All coordinate pairs of a feature's geometry, in order. -/
def featurePoints (f : Feature) : List Pt :=
  match f.geometry with
  | none => []
  | some (.polygon rings) => rings.flatten
  | some (.multiPolygon polys) => (polys.map List.flatten).flatten

/-- Model of `L.geoJSON(feature).getBounds().getCenter()`: the center of the
bounding envelope of the feature's coordinates, returned as `(lat, lng)`;
`none` for an empty geometry (where Leaflet would throw). -/
def boundsCenter (f : Feature) : Option (ℚ × ℚ) :=
  match featurePoints f with
  | [] => none
  | p :: ps =>
      let lngs := (p :: ps).map Prod.fst
      let lats := (p :: ps).map Prod.snd
      some ((lats.foldl min p.2 + lats.foldl max p.2) / 2,
            (lngs.foldl min p.1 + lngs.foldl max p.1) / 2)

/-- Home coordinate resolution from `renderAll`: start from the default
`[homeLat, homeLng]`; when `homeCountry` is non-empty and a feature matches
it by name, use that feature's bounding-envelope center; the source's
`try { ... } catch { /- fallback to defaults -/ }` is modelled by falling
back to the default when the geometry is empty. -/
def resolveHome (homeCountry : String) (defaultCoord : ℚ × ℚ)
    (features : List Feature) : ℚ × ℚ :=
  if homeCountry = "" then defaultCoord
  else
    match findByName homeCountry features with
    | none => defaultCoord
    | some f => (boundsCenter f).getD defaultCoord

/-- A Leaflet path style (the fields set by `renderAll`'s country styles). -/
structure Style where
  fillColor : String
  fillOpacity : ℚ
  color : String
  weight : ℚ
  opacity : Option ℚ
deriving DecidableEq

/-- Faded world-base style of `renderAll` for unmatched features:
`fillColor '#94A3B8', fillOpacity 0.08, color '#CBD5E1', weight 0.3`. -/
def fadedStyle : Style :=
  { fillColor := "#94A3B8", fillOpacity := 8/100, color := "#CBD5E1",
    weight := 3/10, opacity := none }

/-- Highlight style of `renderAll` for matched features:
`fillColor match.color, fillOpacity 0.40, color match.color, weight 1.5,
opacity 0.8`. -/
def highlightStyle (c : String) : Style :=
  { fillColor := c, fillOpacity := 40/100, color := c, weight := 3/2,
    opacity := some (8/10) }

/-- Per-feature style choice of the `L.geoJSON(geoData, { style })` call:
look the feature up in the country matches; highlight when found, faded
otherwise. -/
def styleFor (cms : List CountryMatch) (f : Feature) : Style :=
  match cms.find? (fun c => decide (c.feature = f)) with
  | some m => highlightStyle m.color
  | none => fadedStyle

/-- One fan-out trade curve of `renderAll`: origin and destination as
`(lat, lng)` and the stroke color (`partner.color || '#3B5BF5'`).  Its
control point is `fanOutControlPoint` below, over the real numbers. -/
structure Curve where
  origin : ℚ × ℚ
  dest : ℚ × ℚ
  color : String
deriving DecidableEq

/-- The layers produced by one `renderAll` pass: the single
`L.geoJSON(geoData)` country layer with its per-feature styles (`none`
when the early return for an empty partner list fires), the fan-out
curves, and the home marker position. -/
structure RenderOutput where
  countryLayer : Option (List (Feature × Style))
  curves : List Curve
  homeMarker : Option (ℚ × ℚ)
deriving DecidableEq

/-- Source `renderAll(map, geoData, partners, L)` as a pure description of the
layers it adds after clearing the previous ones: an empty partner list
returns before anything is built; otherwise the country layer styles every
feature against `buildCountryMap`, one curve per partner is drawn from the
resolved home, and the home marker is added. -/
def renderAll (features : List Feature) (partners : List Partner)
    (homeLat homeLng : ℚ) (homeCountry : String) : RenderOutput :=
  if partners = [] then { countryLayer := none, curves := [], homeMarker := none }
  else
    let cms := buildCountryMap features partners
    let home := resolveHome homeCountry (homeLat, homeLng) features
    { countryLayer := some (features.map (fun f => (f, styleFor cms f))),
      curves := partners.map (fun p =>
        { origin := home, dest := (p.lat, p.lng),
          color := colorOrDefault p.color }),
      homeMarker := some home }

/-- Fan-out control point from `renderAll`, over `(lat, lng)` pairs:
`dist = sqrt(dLat*dLat + dLng*dLng)`, `lift = min(dist * 0.35, 40)`,
control point `[(homeLat+destLat)/2 + lift, (homeLng+destLng)/2]`. -/
noncomputable def fanOutControlPoint (home dest : ℝ × ℝ) : ℝ × ℝ :=
  let dLat := dest.1 - home.1
  let dLng := dest.2 - home.2
  let dist := Real.sqrt (dLat * dLat + dLng * dLng)
  let lift := min (dist * 0.35) 40
  ((home.1 + dest.1) / 2 + lift, (home.2 + dest.2) / 2)

/-- The control point with which a rendered fan-out curve is drawn. -/
noncomputable def curveControlPoint (c : Curve) : ℝ × ℝ :=
  fanOutControlPoint ((c.origin.1 : ℝ), (c.origin.2 : ℝ))
    ((c.dest.1 : ℝ), (c.dest.2 : ℝ))

/-- Control point of `TradeMap.drawTradeCurve`, over `(lat, lng)` pairs:
`[(start.lat + end.lat)/2 + 15, (start.lng + end.lng)/2]` — a constant
lift of 15, independent of the distance. -/
def tradeControlPoint (start finish : ℚ × ℚ) : ℚ × ℚ :=
  ((start.1 + finish.1) / 2 + 15, (start.2 + finish.2) / 2)

/-!
## MatchesMap mount/fetch handling

The mount effect issues one `fetch(...).then(r => r.json()).then(data =>
renderAll(...))`.  The chain has no rejection handler, so on a network or
parse failure no handler body runs and the rejection is unhandled.
-/

/-- Outcome of the mount-effect fetch chain of `MatchesMap`, applied to
the settled fetch/parse result: on success the callback renders with the
partner and home values it closed over; on failure there is no handler,
so no render output is produced and the rejection escapes unhandled (the
second component records that an unhandled rejection occurred). -/
def processFetchResult (partners : List Partner) (homeLat homeLng : ℚ)
    (homeCountry : String) (res : Except String (List Feature)) :
    Option RenderOutput × Bool :=
  match res with
  | .ok feats => (some (renderAll feats partners homeLat homeLng homeCountry), false)
  | .error _ => (none, true)

/-!
## MatchesMap component lifecycle

One mounted `MatchesMap` instance: the mount effect (empty dependency
list) creates the widget and issues one boundary fetch whose callback
closes over the mount-time `partners`/`homeCountry` props and the
mount-time `renderAll`; the `[partners]` and `[homeCountry]` effects
re-render with the current props but return early while `geoDataRef` is
still null.
-/

/-- State of one mounted `MatchesMap` instance. -/
structure MMState where
  mountPartners : List Partner
  mountHome : String
  partners : List Partner
  homeCountry : String
  geoData : Option (List Feature)
  fetchCount : Nat
  lastRender : Option RenderOutput
deriving DecidableEq

/-- Events hitting a mounted `MatchesMap` instance. -/
inductive MMEvent where
  | setPartners (ps : List Partner)
  | setHome (h : String)
  | fetchResolves (feats : List Feature)
deriving DecidableEq

/-- Mounting the component: the mount effect runs, creating the map and
issuing the one boundary fetch; its `.then` callback captures the current
`partners` and `homeCountry`. -/
def mmMount (ps : List Partner) (hc : String) : MMState :=
  { mountPartners := ps, mountHome := hc, partners := ps, homeCountry := hc,
    geoData := none, fetchCount := 1, lastRender := none }

/-- One event step of a mounted instance.  A prop-change effect calls
`renderAll` only when `geoDataRef.current` is set (otherwise it returns
early); the fetch callback stores the data and renders with the
mount-time props it closed over.  No step issues a further fetch. -/
def mmStep (homeLat homeLng : ℚ) (s : MMState) : MMEvent → MMState
  | .setPartners ps =>
      match s.geoData with
      | some feats =>
          { s with partners := ps,
                   lastRender := some (renderAll feats ps homeLat homeLng s.homeCountry) }
      | none => { s with partners := ps }
  | .setHome h =>
      match s.geoData with
      | some feats =>
          { s with homeCountry := h,
                   lastRender := some (renderAll feats s.partners homeLat homeLng h) }
      | none => { s with homeCountry := h }
  | .fetchResolves feats =>
      { s with geoData := some feats,
               lastRender := some
                 (renderAll feats s.mountPartners homeLat homeLng s.mountHome) }

/-- Run one instance from mount through a list of events. -/
def mmRun (homeLat homeLng : ℚ) (ps : List Partner) (hc : String)
    (evs : List MMEvent) : MMState :=
  evs.foldl (mmStep homeLat homeLng) (mmMount ps hc)

/-- Boundary fetches issued by a whole process: every mounted `MatchesMap`
instance runs its own mount effect and fetch — there is no shared provider
or cache in the source. -/
def processBoundaryFetches (homeLat homeLng : ℚ)
    (instances : List (List Partner × String × List MMEvent)) : Nat :=
  (instances.map (fun i => (mmRun homeLat homeLng i.1 i.2.1 i.2.2).fetchCount)).sum

/-!
## TradeMap free-form route builder
-/

/-- State of the `TradeMap` route builder: the stored exporter origin
(`exporterRef`), the button label and background, the pushed highlight
layers, and the drawn trade curves as (start, end) pairs in `(lat, lng)`. -/
structure TMState where
  exporter : Option (ℚ × ℚ)
  btnLabel : String
  btnBg : String
  highlights : List Feature
  curves : List ((ℚ × ℚ) × (ℚ × ℚ))
deriving DecidableEq

/-- Model of the `!query.trim()` guard: the trimmed query is empty exactly
when every character of the query is whitespace. -/
def isBlank (q : String) : Bool :=
  q.data.all Char.isWhitespace

/-- Initial `TradeMap` state: no exporter set, button `Set Exporter`. -/
def tmInit : TMState :=
  { exporter := none, btnLabel := "Set Exporter", btnBg := "#2563EB",
    highlights := [], curves := [] }

/-- Source `TradeMap.processCountry` for one submitted query: blank input is
ignored; an unrecognized name only alerts and leaves the state unchanged;
otherwise the feature is highlighted and its envelope center taken — the
first accepted input stores the exporter and recolors the button, every
later accepted input draws a curve from the stored exporter (which is
never reset).  An empty geometry, where Leaflet `getBounds` would throw,
is modelled as leaving the state unchanged. -/
def processCountry (features : List Feature) (s : TMState) (q : String) :
    TMState :=
  if isBlank q then s
  else
    match findByName q features with
    | none => s
    | some f =>
        match boundsCenter f with
        | none => s
        | some center =>
            match s.exporter with
            | none =>
                { s with exporter := some center,
                         btnLabel := "Add Destination", btnBg := "#10B981",
                         highlights := s.highlights ++ [f] }
            | some origin =>
                { s with highlights := s.highlights ++ [f],
                         curves := s.curves ++ [(origin, center)] }

/-!
## Concrete fixtures

Small concrete datasets used to instantiate the theorems: axis-aligned
square countries and partners placed strictly inside them.
-/

/-- Outer ring of a 4×4 square at the origin (GeoJSON `(lng, lat)`). -/
def ringA : List Pt := [(0, 0), (4, 0), (4, 4), (0, 4)]

/-- Outer ring of a 4×4 square shifted to longitudes 10–14. -/
def ringB : List Pt := [(10, 0), (14, 0), (14, 4), (10, 4)]

/-- Outer ring of a 4×4 square shifted to longitudes 20–24. -/
def ringC : List Pt := [(20, 0), (24, 0), (24, 4), (20, 4)]

/-- Square polygon feature named `a`. -/
def featA : Feature := ⟨some (.polygon [ringA]), "a", ""⟩

/-- Square polygon feature named `b`. -/
def featB : Feature := ⟨some (.polygon [ringB]), "b", ""⟩

/-- Square polygon feature named `c`. -/
def featC : Feature := ⟨some (.polygon [ringC]), "c", ""⟩

/-- Square polygon feature with a primary and a formal name. -/
def featBrazil : Feature :=
  ⟨some (.polygon [ringA]), "Brazil", "Federative Republic of Brazil"⟩

/-- MultiPolygon feature made of the `ringA` and `ringB` squares. -/
def featMulti : Feature := ⟨some (.multiPolygon [[ringA], [ringB]]), "m", ""⟩

/-- Partner at `(lat 2, lng 2)`, strictly inside `featA`. -/
def partner1 : Partner := ⟨"P1", 2, 2, "#F00"⟩

/-- Partner at `(lat 3, lng 3)`, also strictly inside `featA`. -/
def partner2 : Partner := ⟨"P2", 3, 3, "#0F0"⟩

/-- The point `(lng 2, lat 2)` is strictly inside the `ringA` square, and
the even-odd ray cast reports it inside. -/
theorem pointInPolygonRings_ringA :
    pointInPolygonRings [ringA] 2 2 = true := by
  norm_num [pointInPolygonRings, ringEdges, edgeCrossing, straddle, ringA]

/-- The point `(lng 3, lat 3)` is inside the `ringA` square. -/
theorem pointInPolygonRings_ringA_p2 :
    pointInPolygonRings [ringA] 3 3 = true := by
  norm_num [pointInPolygonRings, ringEdges, edgeCrossing, straddle, ringA]

/-- Envelope center of the `ringA` square features: `(lat 2, lng 2)`. -/
theorem boundsCenter_featA : boundsCenter featA = some (2, 2) := by
  norm_num [boundsCenter, featurePoints, featA, ringA]

/-- Envelope center of `featB`: `(lat 2, lng 12)`. -/
theorem boundsCenter_featB : boundsCenter featB = some (2, 12) := by
  norm_num [boundsCenter, featurePoints, featB, ringB]

/-- Envelope center of `featC`: `(lat 2, lng 22)`. -/
theorem boundsCenter_featC : boundsCenter featC = some (2, 22) := by
  norm_num [boundsCenter, featurePoints, featC, ringC]

/-- Envelope center of `featBrazil`: `(lat 2, lng 2)`. -/
theorem boundsCenter_featBrazil : boundsCenter featBrazil = some (2, 2) := by
  norm_num [boundsCenter, featurePoints, featBrazil, ringA]

/-!
## C1 — point-to-country resolution
-/

/-- C1.  Country resolution tests the query point against the features in
the dataset's natural order with the even-odd ray cast and returns the
first feature containing it: (1) when no feature contains the point the
result is `none`; (2) when every feature before `f` tests negative and `f`
contains the point, the result is `f` — in particular a point inside a
single simple `Polygon` feature resolves to that feature; (3) a `Polygon`
feature contains the point exactly when its ring set does under the
even-odd cast; (4) a `MultiPolygon` feature contains the point whenever
any one of its constituent polygons does. -/
theorem C1_resolve_first_containing_feature :
    (∀ (features : List Feature) (lng lat : ℚ),
        (∀ f ∈ features, pointInFeature f lng lat = false) →
        resolve features lng lat = none)
    ∧ (∀ (pre post : List Feature) (f : Feature) (lng lat : ℚ),
        (∀ g ∈ pre, pointInFeature g lng lat = false) →
        pointInFeature f lng lat = true →
        resolve (pre ++ f :: post) lng lat = some f)
    ∧ (∀ (f : Feature) (rings : List (List Pt)) (lng lat : ℚ),
        f.geometry = some (.polygon rings) →
        pointInFeature f lng lat = pointInPolygonRings rings lng lat)
    ∧ (∀ (f : Feature) (polys : List (List (List Pt)))
          (poly : List (List Pt)) (lng lat : ℚ),
        f.geometry = some (.multiPolygon polys) → poly ∈ polys →
        pointInPolygonRings poly lng lat = true →
        pointInFeature f lng lat = true) := by
  refine ⟨?_, ?_, ?_, ?_⟩
  · intro features lng lat h
    rw [resolve, List.find?_eq_none]
    intro f hf
    simp [h f hf]
  · intro pre post f lng lat hpre hf
    induction pre with
    | nil =>
        rw [List.nil_append, resolve]
        exact List.find?_cons_of_pos _ hf
    | cons g gs ih =>
        have hg : pointInFeature g lng lat = false :=
          hpre g (List.mem_cons_self g gs)
        have ihs := ih (fun x hx => hpre x (List.mem_cons_of_mem g hx))
        rw [resolve] at ihs ⊢
        rw [List.cons_append, List.find?_cons_of_neg _ (by simp [hg])]
        exact ihs
  · intro f rings lng lat h
    simp [pointInFeature, h]
  · intro f polys poly lng lat h hmem hin
    simp only [pointInFeature, h, List.any_eq_true]
    exact ⟨poly, hmem, hin⟩

/-- Witness for C1 at a concrete dataset: the point `(lng 2, lat 2)` is
inside the single square feature `featA`, no feature precedes it, and
resolution returns `featA`. -/
theorem C1_witness :
    pointInFeature featA 2 2 = true ∧ resolve [featA, featB] 2 2 = some featA := by
  have hin : pointInFeature featA 2 2 = true := by
    simpa [pointInFeature, featA] using pointInPolygonRings_ringA
  refine ⟨hin, ?_⟩
  simpa using
    C1_resolve_first_containing_feature.2.1 [] [featB] featA 2 2
      (by intro g hg; simp at hg) hin

/-!
## C10 — no division by zero in the edge test
-/

/-- C10.  The division by the edge's latitude span is guarded: (1) when
the straddle guard holds, `yj - yi` is nonzero, so the division in the
crossing test never divides by zero; (2) a horizontal edge (`yi = yj`)
never reports a crossing; (3) when the straddle guard fails, the
short-circuited conjunction returns `false` without consulting the
division. -/
theorem C10_no_division_by_zero :
    (∀ yi yj lat : ℚ, straddle yi yj lat = true → yj - yi ≠ 0)
    ∧ (∀ xi yi xj yj lng lat : ℚ, yi = yj →
        edgeCrossing xi yi xj yj lng lat = false)
    ∧ (∀ xi yi xj yj lng lat : ℚ, straddle yi yj lat = false →
        edgeCrossing xi yi xj yj lng lat = false) := by
  refine ⟨?_, ?_, ?_⟩
  · intro yi yj lat h heq
    have hji : yj = yi := by linarith [sub_eq_zero.mp heq]
    subst hji
    simp [straddle] at h
  · intro xi yi xj yj lng lat h
    subst h
    simp [edgeCrossing, straddle]
  · intro xi yi xj yj lng lat h
    simp [edgeCrossing, h]

/-- Witness for C10 on a concrete straddling edge: the guard holds for
`yi = 0`, `yj = 4`, `lat = 2`, and the divisor `yj - yi` is nonzero. -/
theorem C10_witness : straddle 0 4 2 = true ∧ (4 : ℚ) - 0 ≠ 0 :=
  ⟨by decide, C10_no_division_by_zero.1 0 4 2 (by decide)⟩

/-!
## C2 — highlight dedup invariant
-/

/-- Folding `bcmStep` preserves pairwise-distinct features: a record is
appended only when no existing record carries the same feature. -/
theorem bcm_foldl_pairwise (features : List Feature) :
    ∀ (ps : List Partner) (acc : List CountryMatch),
      acc.Pairwise (fun a b => a.feature ≠ b.feature) →
      (ps.foldl (bcmStep features) acc).Pairwise
        (fun a b => a.feature ≠ b.feature) := by
  intro ps
  induction ps with
  | nil => intro acc hacc; simpa using hacc
  | cons p ps ih =>
      intro acc hacc
      rw [List.foldl_cons]
      apply ih
      rw [bcmStep]
      cases hres : resolve features p.lng p.lat with
      | none => exact hacc
      | some f =>
          by_cases hany : acc.any (fun r => decide (r.feature = f)) = true
          · simp [hany, hacc]
          · have hnotin : ∀ r ∈ acc, r.feature ≠ f := by
              intro r hr
              simp only [List.any_eq_true, decide_eq_true_eq] at hany
              exact fun hfeat => hany ⟨r, hr, hfeat⟩
            simp only [hany, Bool.false_eq_true, if_false]
            rw [List.pairwise_append]
            refine ⟨hacc, by simp, ?_⟩
            intro a ha b hb
            simp only [List.mem_singleton] at hb
            subst hb
            exact hnotin a ha



/-- Once some record already carries the feature every remaining partner
resolves to, folding `bcmStep` over those partners changes nothing. -/
theorem bcm_foldl_saturated (features : List Feature) (f₀ : Feature) :
    ∀ (ps : List Partner) (acc : List CountryMatch),
      (∀ p ∈ ps, resolve features p.lng p.lat = some f₀) →
      (∃ r ∈ acc, r.feature = f₀) →
      ps.foldl (bcmStep features) acc = acc := by
  intro ps
  induction ps with
  | nil => intro acc _ _; rfl
  | cons p ps ih =>
      intro acc hres hex
      have hp : resolve features p.lng p.lat = some f₀ :=
        hres p (List.mem_cons_self p ps)
      have hstep : bcmStep features acc p = acc := by
        rw [bcmStep, hp]
        have hany : acc.any (fun r => decide (r.feature = f₀)) = true := by
          obtain ⟨r, hr, hfeat⟩ := hex
          exact List.any_eq_true.mpr ⟨r, hr, by simp [hfeat]⟩
        simp [hany]
      rw [List.foldl_cons, hstep]
      exact ih acc (fun x hx => hres x (List.mem_cons_of_mem p hx)) hex

/-- C2.  One highlight build pass dedups by feature identity: (1) the
records of `buildCountryMap` always carry pairwise-distinct features — at
most one `CountryMatch` per feature, whatever the names; (2) when every
partner of a non-empty list resolves to the same feature `f₀`, exactly one
record is produced, colored by the first partner, and the tooltip member
names are all the partners' labels in encounter order; (3) the effective
color of a partner whose color string is non-empty is that color;
(4) a partner resolving to no feature contributes nothing to the build. -/
theorem C2_highlight_dedup :
    (∀ (features : List Feature) (partners : List Partner),
        (buildCountryMap features partners).Pairwise
          (fun a b => a.feature ≠ b.feature))
    ∧ (∀ (features : List Feature) (p₀ : Partner) (ps : List Partner)
          (f₀ : Feature),
        (∀ p ∈ p₀ :: ps, resolve features p.lng p.lat = some f₀) →
        buildCountryMap features (p₀ :: ps)
            = [{ feature := f₀, color := colorOrDefault p₀.color }]
          ∧ memberNames f₀ (p₀ :: ps) = (p₀ :: ps).map Partner.name)
    ∧ (∀ c : String, c ≠ "" → colorOrDefault c = c)
    ∧ (∀ (features : List Feature) (ps₁ ps₂ : List Partner) (p : Partner),
        resolve features p.lng p.lat = none →
        buildCountryMap features (ps₁ ++ p :: ps₂)
          = buildCountryMap features (ps₁ ++ ps₂)) := by
  refine ⟨?_, ?_, ?_, ?_⟩
  · intro features partners
    exact bcm_foldl_pairwise features partners [] (by simp)
  · intro features p₀ ps f₀ hres
    have hp₀ : resolve features p₀.lng p₀.lat = some f₀ :=
      hres p₀ (List.mem_cons_self p₀ ps)
    constructor
    · rw [buildCountryMap, List.foldl_cons]
      have hfirst : bcmStep features [] p₀
          = [{ feature := f₀, color := colorOrDefault p₀.color }] := by
        rw [bcmStep, hp₀]; rfl
      rw [hfirst]
      exact bcm_foldl_saturated features f₀ ps _
        (fun x hx => hres x (List.mem_cons_of_mem p₀ hx))
        ⟨_, List.mem_singleton_self _, rfl⟩
    · rw [memberNames]
      have hall : ∀ p ∈ p₀ :: ps, pointInFeature f₀ p.lng p.lat = true := by
        intro p hp
        have h := hres p hp
        rw [resolve] at h
        simpa using List.find?_some h
      rw [List.filter_eq_self.mpr hall]
  · intro c hc
    simp [colorOrDefault, hc]
  · intro features ps₁ ps₂ p hnone
    rw [buildCountryMap, buildCountryMap, List.foldl_append, List.foldl_append,
      List.foldl_cons]
    have hskip : bcmStep features (ps₁.foldl (bcmStep features) []) p
        = ps₁.foldl (bcmStep features) [] := by
      rw [bcmStep, hnone]
    rw [hskip]

/-- Witness for C2 at a concrete dataset: two partners inside the same
square feature produce exactly one `CountryMatch`, colored by the first
partner, with both labels as member names in encounter order. -/
theorem C2_witness :
    buildCountryMap [featA] [partner1, partner2]
        = [{ feature := featA, color := "#F00" }]
      ∧ memberNames featA [partner1, partner2] = ["P1", "P2"] := by
  have h1 : pointInFeature featA 2 2 = true := by
    simpa [pointInFeature, featA] using pointInPolygonRings_ringA
  have h2 : pointInFeature featA 3 3 = true := by
    simpa [pointInFeature, featA] using pointInPolygonRings_ringA_p2
  have hres : ∀ p ∈ [partner1, partner2],
      resolve [featA] p.lng p.lat = some featA := by
    intro p hp
    rcases List.mem_pair.mp hp with rfl | rfl
    · rw [resolve]
      exact List.find?_cons_of_pos _ h1
    · rw [resolve]
      exact List.find?_cons_of_pos _ h2
  have h := C2_highlight_dedup.2.1 [featA] partner1 [partner2] featA hres
  exact ⟨h.1, h.2⟩

/-!
## C4 — home resolution
-/

/-- C4.  Home resolution: (1) an empty home-country name returns the
default coordinate unchanged; (2) a name matching no feature returns the
default unchanged; (3) a non-empty name matching a feature (first match,
case-insensitive, primary or formal name) returns that feature's
bounding-envelope center; (4) the function is total and never escapes
these two outcomes — every call returns either the default or an envelope
center, so no failure is raised. -/
theorem C4_resolveHome_fallback :
    (∀ (d : ℚ × ℚ) (features : List Feature),
        resolveHome "" d features = d)
    ∧ (∀ (name : String) (d : ℚ × ℚ) (features : List Feature),
        findByName name features = none → resolveHome name d features = d)
    ∧ (∀ (name : String) (d c : ℚ × ℚ) (features : List Feature)
          (f : Feature),
        name ≠ "" → findByName name features = some f →
        boundsCenter f = some c → resolveHome name d features = c)
    ∧ (∀ (name : String) (d : ℚ × ℚ) (features : List Feature),
        resolveHome name d features = d ∨
          ∃ f c, findByName name features = some f ∧ boundsCenter f = some c ∧
            resolveHome name d features = c) := by
  refine ⟨?_, ?_, ?_, ?_⟩
  · intro d features
    simp [resolveHome]
  · intro name d features h
    by_cases hname : name = ""
    · simp [resolveHome, hname]
    · simp [resolveHome, hname, h]
  · intro name d c features f hname hfind hcenter
    simp [resolveHome, hname, hfind, hcenter]
  · intro name d features
    by_cases hname : name = ""
    · left; simp [resolveHome, hname]
    · cases hfind : findByName name features with
      | none => left; simp [resolveHome, hname, hfind]
      | some f =>
          cases hcenter : boundsCenter f with
          | none => left; simp [resolveHome, hname, hfind, hcenter]
          | some c =>
              right
              exact ⟨f, c, rfl, hcenter, by
                simp [resolveHome, hname, hfind, hcenter]⟩

/-- Witness for C4 at a concrete dataset: the query `brazil` matches
`featBrazil` case-insensitively and yields its envelope center `(2, 2)`,
while `Nowhereland` matches nothing and leaves the default unchanged. -/
theorem C4_witness :
    resolveHome "brazil" (9, 9) [featBrazil] = (2, 2)
      ∧ resolveHome "Nowhereland" (9, 9) [featBrazil] = (9, 9) := by
  constructor
  · exact C4_resolveHome_fallback.2.2.1 "brazil" (9, 9) (2, 2) [featBrazil]
      featBrazil (by decide) (by decide) boundsCenter_featBrazil
  · exact C4_resolveHome_fallback.2.1 "Nowhereland" (9, 9) [featBrazil]
      (by decide)

/-!
## C3 — curve control points

The claim asserts that both usage modes lift the curve by
`min(sqrt(dLat² + dLng²) * 0.35, 40)`.  That is the fan-out formula of
`renderAll`; `TradeMap.drawTradeCurve` instead uses a constant lift of
`15`, so the claim fails on the single free-form route builder.
-/

/-- Counterexample to C3 as stated: for the identical endpoint pair
`(0, 0)`–`(0, 0)` the claimed lift is `min(sqrt(0)·0.35, 40) = 0`, but the
route builder's `drawTradeCurve` lifts the control point by the constant
`15`: its control latitude differs from the fan-out control latitude. -/
theorem C3_trade_lift_counterexample :
    ((tradeControlPoint (0, 0) (0, 0)).1 : ℝ)
      ≠ (fanOutControlPoint (0, 0) (0, 0)).1 := by
  have hfan : (fanOutControlPoint (0, 0) (0, 0)).1 = 0 := by
    rw [fanOutControlPoint]
    norm_num [Real.sqrt_zero]
  have htrade : (tradeControlPoint (0, 0) (0, 0)).1 = 15 := by
    rw [tradeControlPoint]
    norm_num
  rw [hfan, htrade]
  norm_num

/-- C3 (amended).  In fan-out mode the control point is the midpoint of
the endpoints shifted north by `lift = min(sqrt(dLat² + dLng²)·0.35, 40)`,
and that lift never exceeds 40; in the single free-form route builder the
control point is the midpoint shifted north by the constant 15,
independent of distance.  Both are pure functions of the endpoint pair,
so identical endpoints always yield identical control points. -/
theorem C3_curve_control_points :
    (∀ home dest : ℝ × ℝ,
        fanOutControlPoint home dest
            = ((home.1 + dest.1) / 2
                + min (Real.sqrt ((dest.1 - home.1) ^ 2
                    + (dest.2 - home.2) ^ 2) * 0.35) 40,
               (home.2 + dest.2) / 2)
          ∧ (fanOutControlPoint home dest).1 - (home.1 + dest.1) / 2 ≤ 40)
    ∧ (∀ s e : ℚ × ℚ,
        tradeControlPoint s e = ((s.1 + e.1) / 2 + 15, (s.2 + e.2) / 2)) := by
  constructor
  · intro home dest
    constructor
    · rw [fanOutControlPoint]
      norm_num [pow_two]
    · rw [fanOutControlPoint]
      simp
  · intro s e
    rfl

/-!
## C5 — render pass with an empty partner list

The claim asserts that the faded base layer is still rendered for an
empty partner list.  `renderAll` instead returns right after clearing the
previous layers when `partners` is empty (`if (!partners.length) return`),
so no country layer — highlighted or faded — is added at all.
-/

/-- Counterexample to C5 as stated: with one feature and an empty partner
list the render pass adds no country layer at all — in particular no
faded base layer covering the features. -/
theorem C5_no_base_layer_counterexample :
    (renderAll [featBrazil] [] 0 0 "").countryLayer = none := rfl

/-- C5 (amended).  For an empty partner list a render pass produces zero
highlight layers, zero curves, no home marker and no base layer at all
(the early return fires before any layer is built); the single faded base
style — fill opacity 0.08, thin neutral stroke — is applied to every
feature not in the match set only when the partner list is non-empty. -/
theorem C5_empty_partner_render :
    (∀ (features : List Feature) (hLat hLng : ℚ) (hc : String),
        renderAll features [] hLat hLng hc
          = { countryLayer := none, curves := [], homeMarker := none })
    ∧ (∀ (features : List Feature) (partners : List Partner)
          (hLat hLng : ℚ) (hc : String),
        partners ≠ [] →
        (renderAll features partners hLat hLng hc).countryLayer
          = some (features.map (fun f =>
              (f, styleFor (buildCountryMap features partners) f))))
    ∧ (∀ (cms : List CountryMatch) (f : Feature),
        cms.find? (fun c => decide (c.feature = f)) = none →
        styleFor cms f = fadedStyle)
    ∧ fadedStyle.fillOpacity = 8/100 ∧ fadedStyle.weight = 3/10 := by
  refine ⟨?_, ?_, ?_, rfl, rfl⟩
  · intro features hLat hLng hc
    simp [renderAll]
  · intro features partners hLat hLng hc h
    simp [renderAll, h]
  · intro cms f h
    simp [styleFor, h]

/-- Witness for C5 at a concrete dataset: the empty-partner render
produces no layers; a non-empty partner list does produce the country
layer; an unmatched feature gets the faded style. -/
theorem C5_witness :
    renderAll [featA] [] 0 0 ""
        = { countryLayer := none, curves := [], homeMarker := none }
      ∧ (renderAll [featA] [partner1] 0 0 "").countryLayer
          = some [(featA, styleFor (buildCountryMap [featA] [partner1]) featA)]
      ∧ styleFor [] featB = fadedStyle := by
  refine ⟨C5_empty_partner_render.1 [featA] 0 0 "", ?_, ?_⟩
  · exact C5_empty_partner_render.2.1 [featA] [partner1] 0 0 "" (by simp)
  · exact C5_empty_partner_render.2.2.1 [] featB rfl

/-!
## C6 — boundary fetch failure

The claim asserts a graceful `Ready`-with-empty-sets transition with no
uncaught failure.  The mount effect's fetch chain has no rejection
handler, so on failure no handler body runs (no render, no state
transition) and the rejection escapes unhandled.
-/

/-- Counterexample to C6 as stated: a failed boundary fetch leaves an
unhandled promise rejection — the failure does escape uncaught (and no
render pass is performed at all). -/
theorem C6_uncaught_failure_counterexample :
    (processFetchResult [] 0 0 "" (.error "network error")).2 = true := rfl

/-- C6 (amended).  If the boundary fetch or parse fails, no handler runs:
no render pass executes and no highlight or curve layers are created —
the widget keeps only its base tile layer — but the rejection escapes as
an unhandled promise rejection instead of an explicit transition to a
ready state with empty sets. -/
theorem C6_fetch_failure_no_render :
    ∀ (partners : List Partner) (hLat hLng : ℚ) (hc : String) (e : String),
      processFetchResult partners hLat hLng hc (.error e) = (none, true) := by
  intro partners hLat hLng hc e
  rfl

/-!
## C7 — boundary-data loading is per mount, not per process

The claim asserts a process-wide idempotent loader with a shared
in-flight request and a cache.  In the source every map component's mount
effect calls `fetch` unconditionally and stores the result in its own
`geoDataRef`; nothing is shared between instances.
-/

/-- Counterexample to C7 as stated: a process that mounts two map
components issues two boundary fetches — the dataset is not fetched at
most once per process lifetime. -/
theorem C7_two_mounts_counterexample :
    ¬ processBoundaryFetches 0 0 [([], "", []), ([], "", [])] ≤ 1 := by
  decide

/-- C7 (amended).  There is no process-wide boundary cache or shared
in-flight request: every mounted map component instance issues exactly
one fetch in its mount effect, and no later event of the instance —
prop change or fetch resolution — fetches again (re-renders reuse the
instance's own `geoDataRef`); a process with N mounted instances
therefore issues N fetches. -/
theorem C7_fetch_once_per_mount :
    (∀ (hLat hLng : ℚ) (ps : List Partner) (hc : String)
        (evs : List MMEvent),
        (mmRun hLat hLng ps hc evs).fetchCount = 1)
    ∧ (∀ (hLat hLng : ℚ)
        (instances : List (List Partner × String × List MMEvent)),
        processBoundaryFetches hLat hLng instances = instances.length) := by
  have hstep : ∀ (hLat hLng : ℚ) (s : MMState) (e : MMEvent),
      (mmStep hLat hLng s e).fetchCount = s.fetchCount := by
    intro hLat hLng s e
    cases e with
    | setPartners ps => rw [mmStep]; cases s.geoData <;> rfl
    | setHome h => rw [mmStep]; cases s.geoData <;> rfl
    | fetchResolves feats => rfl
  have hfold : ∀ (hLat hLng : ℚ) (evs : List MMEvent) (s : MMState),
      (evs.foldl (mmStep hLat hLng) s).fetchCount = s.fetchCount := by
    intro hLat hLng evs
    induction evs with
    | nil => intro s; rfl
    | cons e evs ih =>
        intro s
        rw [List.foldl_cons, ih, hstep]
  have hone : ∀ (hLat hLng : ℚ) (ps : List Partner) (hc : String)
      (evs : List MMEvent), (mmRun hLat hLng ps hc evs).fetchCount = 1 := by
    intro hLat hLng ps hc evs
    rw [mmRun, hfold]
    rfl
  refine ⟨hone, ?_⟩
  intro hLat hLng instances
  rw [processBoundaryFetches]
  induction instances with
  | nil => rfl
  | cons i is ih =>
      rw [List.map_cons, List.sum_cons, ih, hone, List.length_cons,
        Nat.add_comm]

/-!
## C9 — prop changes racing the initial fetch

The claim asserts that a prop change arriving before the initial fetch
resolves is deferred and the data-arrival render uses the latest values.
The fetch callback closes over the mount-time `partners`/`homeCountry`,
and the prop-change effects return early while `geoDataRef` is null, so
the data-arrival render uses the mount-time values instead.
-/

/-- Counterexample to C9 as stated: partners change from `[]` to
`[partner1]` before the fetch resolves; the render performed on data
arrival is the one for the mount-time empty partner list (no layers at
all), not the render for the latest value `[partner1]`. -/
theorem C9_stale_closure_counterexample :
    (mmRun 0 0 [] "" [.setPartners [partner1],
        .fetchResolves [featA]]).lastRender
        = some { countryLayer := none, curves := [], homeMarker := none }
      ∧ renderAll [featA] [partner1] 0 0 ""
          ≠ { countryLayer := none, curves := [], homeMarker := none } := by
  constructor
  · rfl
  · intro h
    have hc := congrArg RenderOutput.countryLayer h
    rw [renderAll] at hc
    simp at hc

/-- C9 (amended).  A prop change arriving before the initial fetch
resolves is dropped for the data-arrival render, not deferred: the fetch
callback renders with the mount-time partner and home-country values it
closed over; the latest values are applied only when a further prop
change arrives after the data is present. -/
theorem C9_mount_closure_render :
    ∀ (hLat hLng : ℚ) (ps0 ps1 : List Partner) (hc0 : String)
      (feats : List Feature),
      (mmRun hLat hLng ps0 hc0
          [.setPartners ps1, .fetchResolves feats]).lastRender
          = some (renderAll feats ps0 hLat hLng hc0)
        ∧ (mmRun hLat hLng ps0 hc0
            [.setPartners ps1, .fetchResolves feats,
              .setPartners ps1]).lastRender
          = some (renderAll feats ps1 hLat hLng hc0) := by
  intro hLat hLng ps0 ps1 hc0 feats
  exact ⟨rfl, rfl⟩

/-!
## C8 — the route builder's origin is never reset

The claim asserts that after an origin/destination pair completes, the
sequence resets for a new pair.  `processCountry` never clears
`exporterRef`, so every accepted input after the first draws a curve from
the original origin.
-/

/-- Counterexample to C8 as stated: after the accepted inputs `a`, `b`,
`c`, the third input did not start a new pair — it drew a second curve
from the original origin `(2, 2)`, which is still the stored exporter. -/
theorem C8_no_reset_counterexample :
    (processCountry [featA, featB, featC]
        (processCountry [featA, featB, featC]
          (processCountry [featA, featB, featC] tmInit "a") "b") "c").curves
        = [((2, 2), (2, 12)), ((2, 2), (2, 22))]
      ∧ (processCountry [featA, featB, featC]
          (processCountry [featA, featB, featC]
            (processCountry [featA, featB, featC] tmInit "a") "b")
              "c").exporter
        = some (2, 2) := by
  have s1 : processCountry [featA, featB, featC] tmInit "a"
      = { exporter := some (2, 2), btnLabel := "Add Destination",
          btnBg := "#10B981", highlights := [featA], curves := [] } := by
    simp only [processCountry,
      show isBlank "a" = false from by decide,
      show findByName "a" [featA, featB, featC] = some featA from by decide,
      boundsCenter_featA, tmInit, Bool.false_eq_true, if_false]
    rfl
  have s2 : processCountry [featA, featB, featC]
        { exporter := some (2, 2), btnLabel := "Add Destination",
          btnBg := "#10B981", highlights := [featA], curves := [] } "b"
      = { exporter := some (2, 2), btnLabel := "Add Destination",
          btnBg := "#10B981", highlights := [featA, featB],
          curves := [((2, 2), (2, 12))] } := by
    simp only [processCountry,
      show isBlank "b" = false from by decide,
      show findByName "b" [featA, featB, featC] = some featB from by decide,
      boundsCenter_featB, Bool.false_eq_true, if_false]
    rfl
  have s3 : processCountry [featA, featB, featC]
        { exporter := some (2, 2), btnLabel := "Add Destination",
          btnBg := "#10B981", highlights := [featA, featB],
          curves := [((2, 2), (2, 12))] } "c"
      = { exporter := some (2, 2), btnLabel := "Add Destination",
          btnBg := "#10B981", highlights := [featA, featB, featC],
          curves := [((2, 2), (2, 12)), ((2, 2), (2, 22))] } := by
    simp only [processCountry,
      show isBlank "c" = false from by decide,
      show findByName "c" [featA, featB, featC] = some featC from by decide,
      boundsCenter_featC, Bool.false_eq_true, if_false]
    rfl
  rw [s1, s2, s3]
  exact ⟨rfl, rfl⟩

/-- C8 (amended).  The first accepted country input becomes the fixed
origin with a visible button-state change (`Set Exporter` becomes
`Add Destination` with a new color) and draws no curve; every subsequent
accepted input becomes a destination and draws one curve from that same
fixed origin — the origin and button are left untouched, so the sequence
never resets to start a new pair; an unrecognized name leaves the state
unchanged. -/
theorem C8_fixed_origin_route_builder :
    (∀ (features : List Feature) (q : String) (f : Feature) (c : ℚ × ℚ),
        isBlank q = false → findByName q features = some f →
        boundsCenter f = some c →
        processCountry features tmInit q
          = { exporter := some c, btnLabel := "Add Destination",
              btnBg := "#10B981", highlights := [f], curves := [] })
    ∧ (∀ (features : List Feature) (s : TMState) (o : ℚ × ℚ) (q : String)
          (f : Feature) (c : ℚ × ℚ),
        s.exporter = some o → isBlank q = false →
        findByName q features = some f → boundsCenter f = some c →
        processCountry features s q
          = { s with highlights := s.highlights ++ [f],
                     curves := s.curves ++ [(o, c)] })
    ∧ (∀ (features : List Feature) (s : TMState) (q : String),
        findByName q features = none → processCountry features s q = s) := by
  refine ⟨?_, ?_, ?_⟩
  · intro features q f c hq hfind hcenter
    simp only [processCountry, hq, hfind, hcenter, tmInit,
      Bool.false_eq_true, if_false]
    rfl
  · intro features s o q f c ho hq hfind hcenter
    simp only [processCountry, hq, hfind, hcenter, ho,
      Bool.false_eq_true, if_false]
  · intro features s q hfind
    rw [processCountry, hfind]
    cases isBlank q <;> rfl

/-- Witness for C8 at a concrete dataset: the first accepted input `a`
stores the origin `(2, 2)` and recolors the button without drawing, and
from that state the accepted input `b` draws the single curve
`(2, 2) → (2, 12)` while leaving origin and button untouched. -/
theorem C8_witness :
    processCountry [featA, featB] tmInit "a"
        = { exporter := some (2, 2), btnLabel := "Add Destination",
            btnBg := "#10B981", highlights := [featA], curves := [] }
      ∧ processCountry [featA, featB]
          { exporter := some (2, 2), btnLabel := "Add Destination",
            btnBg := "#10B981", highlights := [featA], curves := [] } "b"
        = { exporter := some (2, 2), btnLabel := "Add Destination",
            btnBg := "#10B981", highlights := [featA, featB],
            curves := [((2, 2), (2, 12))] } := by
  constructor
  · exact C8_fixed_origin_route_builder.1 [featA, featB] "a" featA (2, 2)
      (by decide) (by decide) boundsCenter_featA
  · have h := C8_fixed_origin_route_builder.2.1 [featA, featB]
      { exporter := some (2, 2), btnLabel := "Add Destination",
        btnBg := "#10B981", highlights := [featA], curves := [] }
      (2, 2) "b" featB (2, 12) rfl (by decide) (by decide) boundsCenter_featB
    exact h

end MapEngine
